import Mathlib

/-!
Shallow embedding of the secure-auth-api core: `src/utils/tokenManager.js`
(JWT issuance/verification) and `src/controllers/authController.js`
(register / login / refreshToken / logout over the `users` table).

Modelling conventions:
* Timestamps are `Nat` milliseconds since epoch (`Date.now()`).
* A signed JWT is a `Token` record carrying its claims (`userId`, optional
  `email`, `type` tag), the secret it was signed with, and its `iat`/`exp`
  instants; `jwt.verify(t, secret)` succeeds exactly when the secret matches
  and the token is unexpired.  Equality of `Token` values models equality of
  the serialized JWT strings (HS256 signing is deterministic in the payload,
  the secret and the issue time).
* bcrypt is modelled by a deterministic tagged hash; `bcrypt.compare(p, h)`
  holds exactly when `h` is the hash of `p` (collisions are out of scope).
* The `users` table is a `List User`; `UPDATE ... WHERE id = $n` maps every
  row whose id matches, `SELECT ... WHERE email = $1` is a first-match scan.
* Each controller method wraps its `pool.query` calls in `try/catch`; a
  rejected query is modelled by a `Bool` flag per query (in source order),
  and a raised flag routes the run to the method's catch block (HTTP 500,
  or 401 for `refreshToken`).  The flag-free entry points fix every flag to
  `false` (no infrastructure failure).
-/

namespace SecureAuth

/-- Model of `bcrypt.hash(password, 12)`: a deterministic salted-format hash. -/
def bcryptHash (password : String) : String :=
  "$2b$12$" ++ password

/-- Model of `bcrypt.compare(password, hash)`: true iff `hash` hashes `password`. -/
def bcryptCompare (password hash : String) : Bool :=
  hash == bcryptHash password

/-- A signed JWT: claims plus the signing secret and lifetime instants. -/
structure Token where
  userId : Nat
  email : Option String
  type : String
  secret : Nat
  issuedAt : Nat
  expiresAt : Nat
deriving DecidableEq, Repr

/-- The two signing secrets `JWT_SECRET` and `JWT_REFRESH_SECRET`
(independent values from the environment or `crypto.randomBytes`). -/
structure Secrets where
  jwtSecret : Nat
  jwtRefreshSecret : Nat
deriving DecidableEq, Repr

/-- `TokenManager.generateAccessToken(userId, email)`: sign
`{userId, email, type: 'access'}` with `JWT_SECRET`, 15-minute lifetime. -/
def generateAccessToken (s : Secrets) (now userId : Nat) (email : String) : Token :=
  { userId := userId, email := some email, type := "access",
    secret := s.jwtSecret, issuedAt := now, expiresAt := now + 15 * 60 * 1000 }

/-- `TokenManager.generateRefreshToken(userId)`: sign
`{userId, type: 'refresh'}` with `JWT_REFRESH_SECRET`, 7-day lifetime. -/
def generateRefreshToken (s : Secrets) (now userId : Nat) : Token :=
  { userId := userId, email := none, type := "refresh",
    secret := s.jwtRefreshSecret, issuedAt := now, expiresAt := now + 7 * 24 * 60 * 60 * 1000 }

/-- `jwt.verify(token, secret)`: decodes iff the signature matches `secret`
and the token is unexpired at `now`; otherwise it throws (modelled `none`). -/
def jwtVerify (t : Token) (secret now : Nat) : Option Token :=
  if t.secret = secret ∧ now < t.expiresAt then some t else none

/-- `TokenManager.verifyAccessToken(token)`: verify against `JWT_SECRET`,
reject a decoded payload whose `type` is not `'access'`; every failure is
rethrown as the single message `'Invalid or expired access token'`. -/
def verifyAccessToken (s : Secrets) (now : Nat) (t : Token) : Except String Token :=
  match jwtVerify t s.jwtSecret now with
  | some decoded =>
      if decoded.type ≠ "access" then .error "Invalid or expired access token"
      else .ok decoded
  | none => .error "Invalid or expired access token"

/-- `TokenManager.verifyRefreshToken(token)`: verify against
`JWT_REFRESH_SECRET`, reject a payload whose `type` is not `'refresh'`;
every failure is rethrown as `'Invalid or expired refresh token'`. -/
def verifyRefreshToken (s : Secrets) (now : Nat) (t : Token) : Except String Token :=
  match jwtVerify t s.jwtRefreshSecret now with
  | some decoded =>
      if decoded.type ≠ "refresh" then .error "Invalid or expired refresh token"
      else .ok decoded
  | none => .error "Invalid or expired refresh token"

/-- Result of `TokenManager.generateTokenPair`. -/
structure TokenPair where
  accessToken : Token
  refreshToken : Token
  expiresIn : Nat
deriving DecidableEq, Repr

/-- `TokenManager.generateTokenPair(userId, email)`. -/
def generateTokenPair (s : Secrets) (now userId : Nat) (email : String) : TokenPair :=
  { accessToken := generateAccessToken s now userId email,
    refreshToken := generateRefreshToken s now userId,
    expiresIn := 900 }

/-- A row of the `users` table (`src/config/database.js` schema). -/
structure User where
  id : Nat
  email : String
  password_hash : String
  refresh_token : Option Token
  refresh_token_expires : Option Nat
  failed_login_attempts : Nat
  account_locked_until : Option Nat
  last_login : Option Nat
deriving DecidableEq, Repr

/-- `SELECT ... FROM users WHERE email = $1` (unique-indexed; first match). -/
def findByEmail (db : List User) (email : String) : Option User :=
  db.find? fun u => u.email == email

/-- `SELECT ... FROM users WHERE id = $1`. -/
def findById (db : List User) (id : Nat) : Option User :=
  db.find? fun u => u.id == id

/-- `UPDATE users SET ... WHERE id = $n`: applied to every row whose id matches. -/
def updateById (db : List User) (id : Nat) (f : User → User) : List User :=
  db.map fun u => if u.id = id then f u else u

/-- `new Date(x).getTime()` for a nullable timestamp: `new Date(null)` is epoch 0. -/
def jsDate : Option Nat → Nat
  | some t => t
  | none => 0

/-- The login lock test
`user.account_locked_until && new Date() < new Date(user.account_locked_until)`. -/
def lockActive (u : User) (now : Nat) : Bool :=
  match u.account_locked_until with
  | some t => decide (now < t)
  | none => false

/-- An HTTP error response: status code and `message` field. -/
structure ErrResponse where
  status : Nat
  message : String
deriving DecidableEq, Repr

def userExistsResp : ErrResponse := ⟨409, "User already exists"⟩
def registrationFailedResp : ErrResponse := ⟨500, "Registration failed"⟩
def invalidCredentialsResp : ErrResponse := ⟨401, "Invalid credentials"⟩
def accountLockedResp : ErrResponse :=
  ⟨403, "Account temporarily locked due to multiple failed login attempts"⟩
def loginFailedResp : ErrResponse := ⟨500, "Login failed"⟩
def invalidRefreshResp : ErrResponse := ⟨401, "Invalid refresh token"⟩
def invalidOrExpiredRefreshResp : ErrResponse := ⟨401, "Invalid or expired refresh token"⟩
def refreshFailedResp : ErrResponse := ⟨401, "Token refresh failed"⟩
def logoutFailedResp : ErrResponse := ⟨500, "Logout failed"⟩

/-- Success payload of `register` and `login`: user summary plus tokens. -/
structure AuthData where
  userId : Nat
  email : String
  tokens : TokenPair
deriving DecidableEq, Repr

/-- `AuthController.register` with one failure flag per `pool.query` call in
source order: `f1` the duplicate-email SELECT, `f2` the INSERT, `f3` the
refresh-token UPDATE.  A raised flag reaches the catch block (500). -/
def registerF (s : Secrets) (now nextId : Nat) (f1 f2 f3 : Bool)
    (db : List User) (email password : String) :
    Except ErrResponse AuthData × List User :=
  if f1 then (.error registrationFailedResp, db)
  else match findByEmail db email with
  | some _ => (.error userExistsResp, db)
  | none =>
    let passwordHash := bcryptHash password
    if f2 then (.error registrationFailedResp, db)
    else
      let newUser : User :=
        { id := nextId, email := email, password_hash := passwordHash,
          refresh_token := none, refresh_token_expires := none,
          failed_login_attempts := 0, account_locked_until := none,
          last_login := none }
      let db1 := db ++ [newUser]
      let tokens := generateTokenPair s now nextId email
      if f3 then (.error registrationFailedResp, db1)
      else
        let db2 := updateById db1 nextId fun u =>
          { u with refresh_token := some tokens.refreshToken,
                   refresh_token_expires := some (now + 7 * 24 * 60 * 60 * 1000) }
        (.ok ⟨nextId, email, tokens⟩, db2)

/-- `AuthController.register` with no infrastructure failure. -/
def register (s : Secrets) (now nextId : Nat) (db : List User)
    (email password : String) : Except ErrResponse AuthData × List User :=
  registerF s now nextId false false false db email password

/-- `AuthController.login` with one failure flag per `pool.query` call in
source order: `f1` the SELECT by email, `f2` the first UPDATE taken on the
chosen branch (failed-attempts write, or the success-path counter reset),
`f3` the success-path refresh-token UPDATE. -/
def loginF (s : Secrets) (now : Nat) (f1 f2 f3 : Bool)
    (db : List User) (email password : String) :
    Except ErrResponse AuthData × List User :=
  if f1 then (.error loginFailedResp, db)
  else match findByEmail db email with
  | none => (.error invalidCredentialsResp, db)
  | some user =>
    if lockActive user now then (.error accountLockedResp, db)
    else if bcryptCompare password user.password_hash = false then
      let newFailedAttempts := user.failed_login_attempts + 1
      let lockUntil : Option Nat :=
        if newFailedAttempts ≥ 5 then some (now + 15 * 60 * 1000) else none
      if f2 then (.error loginFailedResp, db)
      else
        (.error invalidCredentialsResp,
         updateById db user.id fun u =>
           { u with failed_login_attempts := newFailedAttempts,
                    account_locked_until := lockUntil })
    else
      if f2 then (.error loginFailedResp, db)
      else
        let db1 := updateById db user.id fun u =>
          { u with failed_login_attempts := 0, account_locked_until := none,
                   last_login := some now }
        let tokens := generateTokenPair s now user.id user.email
        if f3 then (.error loginFailedResp, db1)
        else
          let db2 := updateById db1 user.id fun u =>
            { u with refresh_token := some tokens.refreshToken,
                     refresh_token_expires := some (now + 7 * 24 * 60 * 60 * 1000) }
          (.ok ⟨user.id, user.email, tokens⟩, db2)

/-- `AuthController.login` with no infrastructure failure. -/
def login (s : Secrets) (now : Nat) (db : List User) (email password : String) :
    Except ErrResponse AuthData × List User :=
  loginF s now false false false db email password

/-- `AuthController.refreshToken` with one failure flag per `pool.query`
call: `f1` the SELECT by id, `f2` the rotation UPDATE.  A thrown
verification error or raised flag reaches the catch block (401). -/
def refreshTokenF (s : Secrets) (now : Nat) (f1 f2 : Bool)
    (db : List User) (presented : Token) :
    Except ErrResponse TokenPair × List User :=
  match verifyRefreshToken s now presented with
  | .error _ => (.error refreshFailedResp, db)
  | .ok decoded =>
    if f1 then (.error refreshFailedResp, db)
    else match findById db decoded.userId with
    | none => (.error invalidRefreshResp, db)
    | some user =>
      if user.refresh_token ≠ some presented ∨
          now > jsDate user.refresh_token_expires then
        (.error invalidOrExpiredRefreshResp, db)
      else
        let newTokens := generateTokenPair s now user.id user.email
        if f2 then (.error refreshFailedResp, db)
        else
          (.ok newTokens,
           updateById db user.id fun u =>
             { u with refresh_token := some newTokens.refreshToken,
                      refresh_token_expires := some (now + 7 * 24 * 60 * 60 * 1000) })

/-- `AuthController.refreshToken` with no infrastructure failure. -/
def refreshToken (s : Secrets) (now : Nat) (db : List User) (presented : Token) :
    Except ErrResponse TokenPair × List User :=
  refreshTokenF s now false false db presented

/-- `AuthController.logout` with a failure flag for its single UPDATE. -/
def logoutF (f1 : Bool) (db : List User) (userId : Nat) :
    Except ErrResponse Unit × List User :=
  if f1 then (.error logoutFailedResp, db)
  else
    (.ok (),
     updateById db userId fun u =>
       { u with refresh_token := none, refresh_token_expires := none })

/-- `AuthController.logout` with no infrastructure failure. -/
def logout (db : List User) (userId : Nat) : Except ErrResponse Unit × List User :=
  logoutF false db userId

/-- Iterated `login` calls with a fixed email and password, made at the given
times; returns the persisted store after the sequence. -/
def loginRuns (s : Secrets) (email password : String) :
    List Nat → List User → List User
  | [], db => db
  | t :: ts, db => loginRuns s email password ts (login s t db email password).2

/-- Decidable equality of operation results, so that concrete runs can be
checked by evaluation. -/
instance {ε α : Type} [DecidableEq ε] [DecidableEq α] : DecidableEq (Except ε α)
  | .ok a, .ok b =>
      if h : a = b then .isTrue (by rw [h])
      else .isFalse (fun hc => h (Except.ok.inj hc))
  | .error a, .error b =>
      if h : a = b then .isTrue (by rw [h])
      else .isFalse (fun hc => h (Except.error.inj hc))
  | .ok _, .error _ => .isFalse (fun hc => Except.noConfusion hc)
  | .error _, .ok _ => .isFalse (fun hc => Except.noConfusion hc)

/-! ### Concrete fixtures for closed-instance evaluations -/

/-- Fixture signing secrets (two distinct values). -/
def secrets0 : Secrets := ⟨0, 1⟩

/-- Fixture account in its freshly-registered state. -/
def user0 : User :=
  { id := 1, email := "a@x.com", password_hash := bcryptHash "Secur3!Pass",
    refresh_token := none, refresh_token_expires := none,
    failed_login_attempts := 0, account_locked_until := none,
    last_login := none }

/-- Fixture refresh token issued for `user0` at time 0. -/
def token0 : Token := generateRefreshToken secrets0 0 1

/-- Fixture account with an active session holding `token0`. -/
def user1 : User :=
  { user0 with
      refresh_token := some token0,
      refresh_token_expires := some (7 * 24 * 60 * 60 * 1000) }

/-- `user1` after the rotation performed by a refresh at time 1. -/
def user1Rotated : User :=
  { user1 with
      refresh_token := some (generateRefreshToken secrets0 1 1),
      refresh_token_expires := some (1 + 7 * 24 * 60 * 60 * 1000) }

/-- Fixture account with stale lockout state (counter 7, lapsed lock). -/
def userDirty : User :=
  { user0 with failed_login_attempts := 7, account_locked_until := some 5 }

/-- `userDirty` after a successful login at time 10. -/
def userClean : User :=
  { user0 with
      last_login := some 10,
      refresh_token := some (generateRefreshToken secrets0 10 1),
      refresh_token_expires := some (10 + 7 * 24 * 60 * 60 * 1000) }

/-- Fixture account locked until time 100. -/
def userLocked : User :=
  { user0 with account_locked_until := some 100 }

/-- Fixture account at the lockout threshold whose lock has lapsed. -/
def userRelock : User :=
  { user0 with failed_login_attempts := 5, account_locked_until := some 100 }

/-! ### Basic store lemmas -/

theorem findByEmail_singleton (u : User) : findByEmail [u] u.email = some u := by
  simp [findByEmail]

theorem updateById_singleton (u : User) (f : User → User) :
    updateById [u] u.id f = [f u] := by
  simp [updateById]

/-! ### Single-call characterizations of `login` on a one-row store -/

theorem login_locked (s : Secrets) (now : Nat) (u : User) (pw : String)
    (hlock : lockActive u now = true) :
    login s now [u] u.email pw = (.error accountLockedResp, [u]) := by
  simp [login, loginF, findByEmail_singleton, hlock]

theorem login_wrong_password (s : Secrets) (now : Nat) (u : User) (pw : String)
    (hlock : lockActive u now = false)
    (hw : bcryptCompare pw u.password_hash = false) :
    login s now [u] u.email pw =
      (.error invalidCredentialsResp,
       [{ u with failed_login_attempts := u.failed_login_attempts + 1,
                 account_locked_until :=
                   if u.failed_login_attempts + 1 ≥ 5
                   then some (now + 15 * 60 * 1000) else none }]) := by
  simp [login, loginF, findByEmail_singleton, hlock, hw, updateById_singleton]

theorem login_success (s : Secrets) (now : Nat) (u : User) (pw : String)
    (hlock : lockActive u now = false)
    (hw : bcryptCompare pw u.password_hash = true) :
    login s now [u] u.email pw =
      (.ok ⟨u.id, u.email, generateTokenPair s now u.id u.email⟩,
       [{ u with failed_login_attempts := 0, account_locked_until := none,
                 last_login := some now,
                 refresh_token := some (generateRefreshToken s now u.id),
                 refresh_token_expires := some (now + 7 * 24 * 60 * 60 * 1000) }]) := by
  simp [login, loginF, findByEmail_singleton, hlock, hw, updateById_singleton,
    generateTokenPair]

/-! ### Characterizations of `refreshToken` on a one-row store -/

theorem verifyRefreshToken_ok_iff (s : Secrets) (now : Nat) (t d : Token) :
    verifyRefreshToken s now t = .ok d ↔
      d = t ∧ t.secret = s.jwtRefreshSecret ∧ now < t.expiresAt ∧ t.type = "refresh" := by
  by_cases h : t.secret = s.jwtRefreshSecret ∧ now < t.expiresAt
  · by_cases ht : t.type = "refresh" <;>
      simp [verifyRefreshToken, jwtVerify, h, ht, eq_comm]
  · constructor
    · intro hc
      exact absurd hc (by simp [verifyRefreshToken, jwtVerify, h])
    · rintro ⟨-, h1, h2, -⟩
      exact absurd ⟨h1, h2⟩ h

theorem refreshToken_mismatch (s : Secrets) (now : Nat) (u : User) (t : Token)
    (hsec : t.secret = s.jwtRefreshSecret) (hexp : now < t.expiresAt)
    (hty : t.type = "refresh") (hid : u.id = t.userId)
    (hne : u.refresh_token ≠ some t ∨ now > jsDate u.refresh_token_expires) :
    refreshToken s now [u] t = (.error invalidOrExpiredRefreshResp, [u]) := by
  simp [refreshToken, refreshTokenF, verifyRefreshToken, jwtVerify, hsec, hexp,
    hty, findById, hid, hne]

theorem refreshToken_ok_singleton (s : Secrets) (now : Nat) (u : User) (t : Token)
    (hsec : t.secret = s.jwtRefreshSecret) (hexp : now < t.expiresAt)
    (hty : t.type = "refresh") (hid : u.id = t.userId)
    (htok : u.refresh_token = some t)
    (hle : now ≤ jsDate u.refresh_token_expires) :
    refreshToken s now [u] t =
      (.ok (generateTokenPair s now u.id u.email),
       [{ u with refresh_token := some (generateRefreshToken s now u.id),
                 refresh_token_expires := some (now + 7 * 24 * 60 * 60 * 1000) }]) := by
  have hgt : ¬ jsDate u.refresh_token_expires < now := Nat.not_lt.mpr hle
  simp [refreshToken, refreshTokenF, verifyRefreshToken, jwtVerify, findById,
    hsec, hexp, hty, hid, htok, hgt, updateById, generateTokenPair]

theorem refreshToken_ok_elim (s : Secrets) (now : Nat) (u : User) (t : Token)
    (r : TokenPair) (db' : List User)
    (h : refreshToken s now [u] t = (.ok r, db')) :
    t.secret = s.jwtRefreshSecret ∧ now < t.expiresAt ∧ t.type = "refresh" ∧
    u.id = t.userId ∧ u.refresh_token = some t ∧
    now ≤ jsDate u.refresh_token_expires ∧
    r = generateTokenPair s now u.id u.email ∧
    db' = [{ u with refresh_token := some (generateRefreshToken s now u.id),
                    refresh_token_expires := some (now + 7 * 24 * 60 * 60 * 1000) }] := by
  by_cases hsec : t.secret = s.jwtRefreshSecret
  case neg =>
    exact absurd h
      (by simp [refreshToken, refreshTokenF, verifyRefreshToken, jwtVerify, hsec])
  by_cases hexp : now < t.expiresAt
  case neg =>
    exact absurd h
      (by simp [refreshToken, refreshTokenF, verifyRefreshToken, jwtVerify, hsec, hexp])
  by_cases hty : t.type = "refresh"
  case neg =>
    exact absurd h
      (by simp [refreshToken, refreshTokenF, verifyRefreshToken, jwtVerify, hsec, hexp, hty])
  by_cases hid : u.id = t.userId
  case neg =>
    exact absurd h
      (by simp [refreshToken, refreshTokenF, verifyRefreshToken, jwtVerify, findById,
        hsec, hexp, hty, hid])
  by_cases htok : u.refresh_token = some t
  case neg =>
    rw [refreshToken_mismatch s now u t hsec hexp hty hid (Or.inl htok)] at h
    exact absurd h (by simp)
  by_cases hle : now ≤ jsDate u.refresh_token_expires
  case neg =>
    rw [refreshToken_mismatch s now u t hsec hexp hty hid (Or.inr (by omega))] at h
    exact absurd h (by simp)
  rw [refreshToken_ok_singleton s now u t hsec hexp hty hid htok hle] at h
  simp only [Prod.mk.injEq, Except.ok.injEq] at h
  exact ⟨hsec, hexp, hty, hid, htok, hle, h.1.symm, h.2.symm⟩

theorem refreshToken_error_frame (s : Secrets) (now : Nat) (db : List User)
    (t : Token) (e : ErrResponse)
    (h : (refreshToken s now db t).1 = .error e) :
    (refreshToken s now db t).2 = db := by
  unfold refreshToken refreshTokenF at h ⊢
  cases hv : verifyRefreshToken s now t with
  | error msg => simp [hv]
  | ok d =>
    simp only [hv] at h ⊢
    cases hf : findById db d.userId with
    | none => simp [hf]
    | some user =>
      simp only [hf] at h ⊢
      by_cases hc : user.refresh_token ≠ some t ∨ now > jsDate user.refresh_token_expires
      · simp [hc]
      · rw [if_neg hc] at h
        simp at h

/-! ### `logout` -/

theorem logout_spec (db : List User) (userId : Nat) :
    logout db userId =
      (.ok (),
       updateById db userId fun u =>
         { u with refresh_token := none, refresh_token_expires := none }) := rfl

/-! ### Claim theorems -/

/-- C5: a token minted by `generateRefreshToken` fails `verifyAccessToken`,
and a token minted by `generateAccessToken` fails `verifyRefreshToken`, at
every verification time and for every configuration of the two independent
signing secrets, even though both tokens are correctly signed: the refresh
token carries `JWT_REFRESH_SECRET` and the access token `JWT_SECRET`, so a
refresh token never verifies against the access-token secret (and the `type`
claim check rejects cross-use even under key confusion). -/
theorem c5_cross_verification_fails (s : Secrets) (t now uid : Nat) (e : String) :
    (generateRefreshToken s t uid).secret = s.jwtRefreshSecret ∧
    (generateAccessToken s t uid e).secret = s.jwtSecret ∧
    verifyAccessToken s now (generateRefreshToken s t uid) =
      .error "Invalid or expired access token" ∧
    verifyRefreshToken s now (generateAccessToken s t uid e) =
      .error "Invalid or expired refresh token" := by
  refine ⟨rfl, rfl, ?_, ?_⟩
  · by_cases hc : s.jwtRefreshSecret = s.jwtSecret ∧ now < t + 7 * 24 * 60 * 60 * 1000 <;>
      simp [verifyAccessToken, generateRefreshToken, jwtVerify, hc]
  · by_cases hc : s.jwtSecret = s.jwtRefreshSecret ∧ now < t + 15 * 60 * 1000 <;>
      simp [verifyRefreshToken, generateAccessToken, jwtVerify, hc]

/-- C9: `generateTokenPair(u, e)` round-trips: verifying the access token at
issuance time succeeds and the decoded claims carry the original `userId` and
`email`; verifying the refresh token succeeds and the decoded claims carry the
original `userId`; and the returned pair carries `expiresIn = 900`. -/
theorem c9_token_pair_round_trip (s : Secrets) (now uid : Nat) (e : String) :
    (generateTokenPair s now uid e).expiresIn = 900 ∧
    verifyAccessToken s now (generateTokenPair s now uid e).accessToken =
      .ok (generateTokenPair s now uid e).accessToken ∧
    (generateTokenPair s now uid e).accessToken.userId = uid ∧
    (generateTokenPair s now uid e).accessToken.email = some e ∧
    verifyRefreshToken s now (generateTokenPair s now uid e).refreshToken =
      .ok (generateTokenPair s now uid e).refreshToken ∧
    (generateTokenPair s now uid e).refreshToken.userId = uid := by
  refine ⟨rfl, ?_, rfl, rfl, ?_, rfl⟩ <;>
    simp [verifyAccessToken, verifyRefreshToken, generateTokenPair,
      generateAccessToken, generateRefreshToken, jwtVerify]

/-- C7: while a user's `account_locked_until` lies strictly in the future,
`login` fails with the `AccountLocked` response for every submitted password
(so password verification is never consulted) and leaves the stored record
completely unchanged. -/
theorem c7_active_lock_rejects_unchanged (s : Secrets) (now t : Nat) (u : User)
    (pw : String) (hlock : u.account_locked_until = some t) (hnow : now < t) :
    login s now [u] u.email pw = (.error accountLockedResp, [u]) := by
  apply login_locked
  simp [lockActive, hlock, hnow]

/-- C6: a `login` with an email that has no account yields exactly the same
error response (status and message) as a `login` with an existing email and a
wrong password: both return the unified `Invalid credentials` failure, so the
observable outcome does not reveal whether the account exists. -/
theorem c6_no_user_existence_oracle (s : Secrets) (n1 n2 : Nat)
    (db : List User) (e1 p1 : String) (u : User) (p2 : String)
    (habsent : findByEmail db e1 = none)
    (hlock : lockActive u n2 = false)
    (hw : bcryptCompare p2 u.password_hash = false) :
    (login s n1 db e1 p1).1 = .error invalidCredentialsResp ∧
    (login s n2 [u] u.email p2).1 = .error invalidCredentialsResp ∧
    (login s n1 db e1 p1).1 = (login s n2 [u] u.email p2).1 := by
  have h1 : login s n1 db e1 p1 = (.error invalidCredentialsResp, db) := by
    simp [login, loginF, habsent]
  have h2 := login_wrong_password s n2 u p2 hlock hw
  rw [h1, h2]
  exact ⟨rfl, rfl, rfl⟩

/-- C3: whenever a `login` call on a user's record succeeds, the persisted
record afterwards has `failed_login_attempts = 0` and
`account_locked_until = none`, whatever their previous values were. -/
theorem c3_success_resets_lockout (s : Secrets) (now : Nat) (u : User)
    (email pw : String) (r : AuthData) (db' : List User)
    (h : login s now [u] email pw = (.ok r, db')) :
    db'.all (fun u' =>
      u'.failed_login_attempts == 0 && u'.account_locked_until == none) = true := by
  by_cases he : u.email = email
  case neg =>
    exact absurd h (by simp [login, loginF, findByEmail, he])
  subst he
  by_cases hlock : lockActive u now = true
  case pos =>
    rw [login_locked s now u pw hlock] at h
    exact absurd h (by simp)
  replace hlock : lockActive u now = false := by simpa using hlock
  by_cases hw : bcryptCompare pw u.password_hash = true
  case neg =>
    replace hw : bcryptCompare pw u.password_hash = false := by simpa using hw
    rw [login_wrong_password s now u pw hlock hw] at h
    exact absurd h (by simp)
  rw [login_success s now u pw hlock hw] at h
  simp only [Prod.mk.injEq] at h
  rw [← h.2]
  simp

/-- C10: once the lock window has lapsed (`account_locked_until ≤ now`), the
stored `failed_login_attempts` counter is not reset by the lazy unlock: a
single further wrong-password `login` is answered `InvalidCredentials`, pushes
the counter to its old value plus one (still at or above the threshold), and
immediately re-locks the account until `now + 15` minutes. -/
theorem c10_lapsed_lock_relocks (s : Secrets) (now t0 : Nat) (u : User)
    (pw : String)
    (hcount : 5 ≤ u.failed_login_attempts)
    (hlock : u.account_locked_until = some t0)
    (hlapsed : t0 ≤ now)
    (hw : bcryptCompare pw u.password_hash = false) :
    login s now [u] u.email pw =
      (.error invalidCredentialsResp,
       [{ u with failed_login_attempts := u.failed_login_attempts + 1,
                 account_locked_until := some (now + 15 * 60 * 1000) }]) := by
  have hl : lockActive u now = false := by
    simp only [lockActive, hlock, decide_eq_false_iff_not]
    omega
  rw [login_wrong_password s now u pw hl hw]
  have h5 : u.failed_login_attempts + 1 ≥ 5 := by omega
  simp [h5]

/-- C1: starting from a fresh account (zero failed attempts, no lock), five
consecutive wrong-password `login` calls all fail `InvalidCredentials`; the
fifth leaves the counter at 5 and the account locked until its call time plus
15 minutes; and a sixth call made while `now < account_locked_until` fails
`AccountLocked` for every submitted password, the correct one included. -/
theorem c1_five_failures_lock_account (s : Secrets) (u : User) (wrong p6 : String)
    (t1 t2 t3 t4 t5 t6 : Nat)
    (h0 : u.failed_login_attempts = 0)
    (hl : u.account_locked_until = none)
    (hw : bcryptCompare wrong u.password_hash = false)
    (h6 : t6 < t5 + 15 * 60 * 1000) :
    (login s t1 [u] u.email wrong).1 = .error invalidCredentialsResp ∧
    (login s t2 (loginRuns s u.email wrong [t1] [u]) u.email wrong).1 =
      .error invalidCredentialsResp ∧
    (login s t3 (loginRuns s u.email wrong [t1, t2] [u]) u.email wrong).1 =
      .error invalidCredentialsResp ∧
    (login s t4 (loginRuns s u.email wrong [t1, t2, t3] [u]) u.email wrong).1 =
      .error invalidCredentialsResp ∧
    (login s t5 (loginRuns s u.email wrong [t1, t2, t3, t4] [u]) u.email wrong).1 =
      .error invalidCredentialsResp ∧
    loginRuns s u.email wrong [t1, t2, t3, t4, t5] [u] =
      [{ u with failed_login_attempts := 5,
                account_locked_until := some (t5 + 15 * 60 * 1000) }] ∧
    (login s t6 (loginRuns s u.email wrong [t1, t2, t3, t4, t5] [u]) u.email p6).1 =
      .error accountLockedResp := by
  simp [loginRuns, login, loginF, findByEmail, lockActive, updateById,
    h0, hl, hw, h6]

/-- C2: refresh tokens are single-use.  If `refreshToken(T1)` succeeds and the
returned pair carries a refresh token different from `T1`, then a later
`refreshToken(T1)` call against the rotated store fails with the
`Invalid or expired refresh token` response even though `T1`'s own signature
and embedded expiry are still valid at that time; and a `refreshToken` call
can only succeed when the presented token exactly matches the stored one and
the stored expiry has not passed. -/
theorem c2_refresh_rotation_single_use (s : Secrets) (n1 n2 n3 : Nat) (u v : User)
    (t1 tok : Token) (pair r : TokenPair) (db1 db2 : List User)
    (h : refreshToken s n1 [u] t1 = (.ok pair, db1))
    (hne : pair.refreshToken ≠ t1)
    (hexp2 : n2 < t1.expiresAt)
    (hsucc : refreshToken s n3 [v] tok = (.ok r, db2)) :
    (refreshToken s n2 db1 t1).1 = .error invalidOrExpiredRefreshResp ∧
    v.refresh_token = some tok ∧ n3 ≤ jsDate v.refresh_token_expires := by
  obtain ⟨hsec, hexp1, hty, hid, htok, hle, hr, hdb⟩ :=
    refreshToken_ok_elim s n1 u t1 pair db1 h
  obtain ⟨-, -, -, -, hvtok, hvle, -, -⟩ :=
    refreshToken_ok_elim s n3 v tok r db2 hsucc
  refine ⟨?_, hvtok, hvle⟩
  subst hdb
  have hne2 : ({ u with
      refresh_token := some (generateRefreshToken s n1 u.id),
      refresh_token_expires := some (n1 + 7 * 24 * 60 * 60 * 1000) } : User).refresh_token
      ≠ some t1 := by
    simp only [Option.some.injEq]
    intro hc
    apply hne
    rw [hr]
    simpa [generateTokenPair] using hc
  have hm := refreshToken_mismatch s n2
    ({ u with
        refresh_token := some (generateRefreshToken s n1 u.id),
        refresh_token_expires := some (n1 + 7 * 24 * 60 * 60 * 1000) })
    t1 hsec hexp2 hty hid (Or.inl hne2)
  rw [hm]

/-- C4: `logout` unconditionally succeeds and nulls the stored refresh token
and its expiry; afterwards any `refreshToken` call presenting a refresh token
previously issued for this user fails with status 401 at every later time,
whether the token's own signature window is still open (stored-token mismatch)
or already closed (verification failure); and a second `logout` is not an
error and leaves the store as it was. -/
theorem c4_logout_revokes_session (s : Secrets) (u : User) (n0 n : Nat) :
    (logout [u] u.id).1 = .ok () ∧
    (logout [u] u.id).2 =
      [{ u with refresh_token := none, refresh_token_expires := none }] ∧
    ((refreshToken s n (logout [u] u.id).2 (generateRefreshToken s n0 u.id)).1 =
        .error invalidOrExpiredRefreshResp ∨
     (refreshToken s n (logout [u] u.id).2 (generateRefreshToken s n0 u.id)).1 =
        .error refreshFailedResp) ∧
    logout (logout [u] u.id).2 u.id = (.ok (), (logout [u] u.id).2) := by
  have hdb : (logout [u] u.id).2 =
      [{ u with refresh_token := none, refresh_token_expires := none }] := by
    simp [logout, logoutF, updateById]
  refine ⟨rfl, hdb, ?_, ?_⟩
  · rw [hdb]
    by_cases hn : n < (generateRefreshToken s n0 u.id).expiresAt
    · left
      have hm := refreshToken_mismatch s n
        ({ u with refresh_token := none, refresh_token_expires := none })
        (generateRefreshToken s n0 u.id) rfl hn rfl rfl (Or.inl (by simp))
      rw [hm]
    · right
      simp only [generateRefreshToken] at hn
      simp [refreshToken, refreshTokenF, verifyRefreshToken, jwtVerify,
        generateRefreshToken, hn]
  · rw [hdb]
    simp [logout, logoutF, updateById]

/-- C8 counterexample: the claim that an error-returning operation leaves no
partial state fails on `register`.  The persisted writes of `register` (the
INSERT and the refresh-token UPDATE) are not wrapped in a transaction, so when
the UPDATE's `pool.query` rejects, the catch block returns the 500
`Registration failed` error while the freshly inserted credential record
remains in the store: starting from an empty store, the erroring call leaves a
record behind for the registered email. -/
theorem c8_counterexample_partial_register :
    (registerF ⟨0, 1⟩ 0 1 false false true [] "a@x.com" "Secur3!Pass").1 =
      .error registrationFailedResp ∧
    (registerF ⟨0, 1⟩ 0 1 false false true [] "a@x.com" "Secur3!Pass").2 ≠ [] ∧
    (findByEmail (registerF ⟨0, 1⟩ 0 1 false false true [] "a@x.com" "Secur3!Pass").2
        "a@x.com").isSome = true := by
  refine ⟨rfl, ?_, rfl⟩
  decide

/-- C8 amended: in runs where no persistence query fails, error-returning
operations expose no partial state — a duplicate `register` and an
unknown-email `login` return with the store untouched, every erroring
`refreshToken` call leaves the store unchanged, `logout` never errors, and
the only error-path write (`login` with a wrong password) persists the new
`failed_login_attempts` together with its corresponding
`account_locked_until` in one atomic update.  (With an injected query
failure after `register`'s INSERT, the 500 error path does leave the inserted
record behind: the writes are not transactional.) -/
theorem c8_amended_no_partial_state (s s2 s4 s5 : Secrets)
    (now nextId n2 n4 n5 uid : Nat)
    (db db2 db5 dbl : List User) (email pw email5 pw5 pw4 : String)
    (tok : Token) (u : User)
    (hdup : (findByEmail db email).isSome = true)
    (herr : (refreshTokenF s2 n2 false false db2 tok).1.isOk = false)
    (hlock4 : lockActive u n4 = false)
    (hw4 : bcryptCompare pw4 u.password_hash = false)
    (habsent : findByEmail db5 email5 = none) :
    register s now nextId db email pw = (.error userExistsResp, db) ∧
    (refreshToken s2 n2 db2 tok).2 = db2 ∧
    login s5 n5 db5 email5 pw5 = (.error invalidCredentialsResp, db5) ∧
    login s4 n4 [u] u.email pw4 =
      (.error invalidCredentialsResp,
       [{ u with failed_login_attempts := u.failed_login_attempts + 1,
                 account_locked_until :=
                   if u.failed_login_attempts + 1 ≥ 5
                   then some (n4 + 15 * 60 * 1000) else none }]) ∧
    (logout dbl uid).1 = .ok () := by
  refine ⟨?_, ?_, ?_, login_wrong_password s4 n4 u pw4 hlock4 hw4, rfl⟩
  · obtain ⟨w, hwit⟩ := Option.isSome_iff_exists.mp hdup
    simp [register, registerF, hwit]
  · cases hres : (refreshToken s2 n2 db2 tok).1 with
    | ok r =>
      rw [show refreshToken s2 n2 db2 tok = refreshTokenF s2 n2 false false db2 tok
        from rfl] at hres
      rw [hres] at herr
      simp [Except.isOk, Except.toBool] at herr
    | error e => exact refreshToken_error_frame s2 n2 db2 tok e hres
  · simp [login, loginF, habsent]

/-! ### Closed witnesses -/

/-- Witness for C1 at a concrete fresh account: five wrong-password calls at
times 0, then a sixth call with the correct password inside the lock window. -/
theorem c1_five_failures_lock_account_witness :
    user0.failed_login_attempts = 0 ∧
    user0.account_locked_until = none ∧
    bcryptCompare "wrong" user0.password_hash = false ∧
    (0 : Nat) < 0 + 15 * 60 * 1000 ∧
    ((login secrets0 0 [user0] user0.email "wrong").1 = .error invalidCredentialsResp ∧
     (login secrets0 0 (loginRuns secrets0 user0.email "wrong" [0] [user0])
        user0.email "wrong").1 = .error invalidCredentialsResp ∧
     (login secrets0 0 (loginRuns secrets0 user0.email "wrong" [0, 0] [user0])
        user0.email "wrong").1 = .error invalidCredentialsResp ∧
     (login secrets0 0 (loginRuns secrets0 user0.email "wrong" [0, 0, 0] [user0])
        user0.email "wrong").1 = .error invalidCredentialsResp ∧
     (login secrets0 0 (loginRuns secrets0 user0.email "wrong" [0, 0, 0, 0] [user0])
        user0.email "wrong").1 = .error invalidCredentialsResp ∧
     loginRuns secrets0 user0.email "wrong" [0, 0, 0, 0, 0] [user0] =
       [{ user0 with
            failed_login_attempts := 5,
            account_locked_until := some (0 + 15 * 60 * 1000) }] ∧
     (login secrets0 0 (loginRuns secrets0 user0.email "wrong" [0, 0, 0, 0, 0] [user0])
        user0.email "Secur3!Pass").1 = .error accountLockedResp) :=
  ⟨rfl, rfl, by decide, by decide,
   c1_five_failures_lock_account secrets0 user0 "wrong" "Secur3!Pass" 0 0 0 0 0 0
     rfl rfl (by decide) (by decide)⟩

/-- Witness for C2: a concrete refresh at time 1 rotates `token0` away; the
replay of `token0` at time 2 is rejected. -/
theorem c2_refresh_rotation_single_use_witness :
    refreshToken secrets0 1 [user1] token0 =
      (.ok (generateTokenPair secrets0 1 1 "a@x.com"), [user1Rotated]) ∧
    (generateTokenPair secrets0 1 1 "a@x.com").refreshToken ≠ token0 ∧
    (2 : Nat) < token0.expiresAt ∧
    ((refreshToken secrets0 2 [user1Rotated] token0).1 =
        .error invalidOrExpiredRefreshResp ∧
     user1.refresh_token = some token0 ∧
     (1 : Nat) ≤ jsDate user1.refresh_token_expires) :=
  ⟨by decide, by decide, by decide,
   c2_refresh_rotation_single_use secrets0 1 2 1 user1 user1 token0 token0
     (generateTokenPair secrets0 1 1 "a@x.com")
     (generateTokenPair secrets0 1 1 "a@x.com")
     [user1Rotated] [user1Rotated] (by decide) (by decide) (by decide) (by decide)⟩

/-- Witness for C3: a successful login at time 10 on a record with counter 7
and a lapsed lock leaves counter 0 and no lock. -/
theorem c3_success_resets_lockout_witness :
    login secrets0 10 [userDirty] "a@x.com" "Secur3!Pass" =
      (.ok ⟨1, "a@x.com", generateTokenPair secrets0 10 1 "a@x.com"⟩, [userClean]) ∧
    ([userClean].all (fun u' =>
      u'.failed_login_attempts == 0 && u'.account_locked_until == none)) = true :=
  ⟨by decide,
   c3_success_resets_lockout secrets0 10 userDirty "a@x.com" "Secur3!Pass"
     ⟨1, "a@x.com", generateTokenPair secrets0 10 1 "a@x.com"⟩ [userClean] (by decide)⟩

/-- Witness for C6: an unknown email and a wrong password produce the same
concrete error response. -/
theorem c6_no_user_existence_oracle_witness :
    findByEmail [] "ghost@x.com" = none ∧
    lockActive user0 0 = false ∧
    bcryptCompare "wrong" user0.password_hash = false ∧
    ((login secrets0 0 [] "ghost@x.com" "pw").1 = .error invalidCredentialsResp ∧
     (login secrets0 0 [user0] user0.email "wrong").1 = .error invalidCredentialsResp ∧
     (login secrets0 0 [] "ghost@x.com" "pw").1 =
       (login secrets0 0 [user0] user0.email "wrong").1) :=
  ⟨rfl, rfl, by decide,
   c6_no_user_existence_oracle secrets0 0 0 [] "ghost@x.com" "pw" user0 "wrong"
     rfl rfl (by decide)⟩

/-- Witness for C7: a login at time 0 on an account locked until 100 is
rejected with the correct password and changes nothing. -/
theorem c7_active_lock_rejects_unchanged_witness :
    userLocked.account_locked_until = some 100 ∧
    (0 : Nat) < 100 ∧
    login secrets0 0 [userLocked] userLocked.email "Secur3!Pass" =
      (.error accountLockedResp, [userLocked]) :=
  ⟨rfl, by decide,
   c7_active_lock_rejects_unchanged secrets0 0 100 userLocked "Secur3!Pass"
     rfl (by decide)⟩

/-- Witness for C10: a wrong password at time 200 on a lapsed lock (until 100,
counter 5) re-locks the account until 200 plus 15 minutes with counter 6. -/
theorem c10_lapsed_lock_relocks_witness :
    5 ≤ userRelock.failed_login_attempts ∧
    userRelock.account_locked_until = some 100 ∧
    (100 : Nat) ≤ 200 ∧
    bcryptCompare "wrong" userRelock.password_hash = false ∧
    login secrets0 200 [userRelock] userRelock.email "wrong" =
      (.error invalidCredentialsResp,
       [{ userRelock with
            failed_login_attempts := userRelock.failed_login_attempts + 1,
            account_locked_until := some (200 + 15 * 60 * 1000) }]) :=
  ⟨by decide, rfl, by decide, by decide,
   c10_lapsed_lock_relocks secrets0 200 100 userRelock "wrong"
     (by decide) rfl (by decide) (by decide)⟩

/-- Witness for the amended C8 at concrete inputs: a duplicate registration,
a failing refresh against an empty store, a wrong-password login and an
unknown-email login, plus a logout. -/
theorem c8_amended_no_partial_state_witness :
    (findByEmail [user0] "a@x.com").isSome = true ∧
    (refreshTokenF secrets0 0 false false [] token0).1.isOk = false ∧
    lockActive user0 0 = false ∧
    bcryptCompare "wrong" user0.password_hash = false ∧
    findByEmail [] "ghost@x.com" = none ∧
    (register secrets0 0 2 [user0] "a@x.com" "pw" = (.error userExistsResp, [user0]) ∧
     (refreshToken secrets0 0 [] token0).2 = [] ∧
     login secrets0 0 [] "ghost@x.com" "pw" = (.error invalidCredentialsResp, []) ∧
     login secrets0 0 [user0] user0.email "wrong" =
       (.error invalidCredentialsResp,
        [{ user0 with
             failed_login_attempts := user0.failed_login_attempts + 1,
             account_locked_until :=
               if user0.failed_login_attempts + 1 ≥ 5
               then some (0 + 15 * 60 * 1000) else none }]) ∧
     (logout [user0] 1).1 = .ok ()) :=
  ⟨by decide, by decide, rfl, by decide, rfl,
   c8_amended_no_partial_state secrets0 secrets0 secrets0 secrets0 0 2 0 0 0 1
     [user0] [] [] [user0] "a@x.com" "pw" "ghost@x.com" "pw" "wrong" token0 user0
     (by decide) (by decide) rfl (by decide) rfl⟩

end SecureAuth
